import Mathlib

/-!
Verification of the Supply-Chain shipping estimator and route planner
(`script.js`) against its specification.  JavaScript numbers are modelled
as real numbers, `Math.round` as `jsRound` (half toward positive
infinity), `Math.atan2` as the usual piecewise `atan2`, and fallible or
DOM-driven code paths as explicit sum types.
-/

open scoped Real

/-- JavaScript `Math.round`: rounds half toward positive infinity,
which over the reals is `⌊x + 1/2⌋`. -/
noncomputable def jsRound (x : ℝ) : ℤ := ⌊x + 1/2⌋

/-- JavaScript `Math.atan2(y, x)` over the reals (standard piecewise
definition from `Real.arctan`). -/
noncomputable def atan2 (y x : ℝ) : ℝ :=
  if 0 < x then Real.arctan (y / x)
  else if x < 0 ∧ 0 ≤ y then Real.arctan (y / x) + Real.pi
  else if x < 0 ∧ y < 0 then Real.arctan (y / x) - Real.pi
  else if x = 0 ∧ 0 < y then Real.pi / 2
  else if x = 0 ∧ y < 0 then -(Real.pi / 2)
  else 0

/-- `calculateDistance` (script.js lines 79-88): haversine great-circle
distance in kilometers between two latitude/longitude pairs, with Earth
radius 6371 km, rounded to the nearest integer by `Math.round`. -/
noncomputable def calculateDistance (lat1 lng1 lat2 lng2 : ℝ) : ℤ :=
  let R : ℝ := 6371
  let dLat := (lat2 - lat1) * Real.pi / 180
  let dLng := (lng2 - lng1) * Real.pi / 180
  let a := Real.sin (dLat / 2) * Real.sin (dLat / 2) +
    Real.cos (lat1 * Real.pi / 180) * Real.cos (lat2 * Real.pi / 180) *
    Real.sin (dLng / 2) * Real.sin (dLng / 2)
  let c := 2 * atan2 (Real.sqrt a) (Real.sqrt (1 - a))
  jsRound (R * c)

/-- A geocoded location (script.js lines 59-67): display name, full
provider name, coordinates, provider place id, result type and optional
postal code. -/
structure Location where
  name : String
  fullName : String
  lat : ℝ
  lng : ℝ
  id : ℕ
  type : String
  postcode : Option String

/-- The haversine distance between two `Location`s, as inlined in the
source at every `calculateDistance(a.lat, a.lng, b.lat, b.lng)` call. -/
noncomputable def dLoc (p q : Location) : ℤ :=
  calculateDistance p.lat p.lng q.lat q.lng

lemma jsRound_zero : jsRound 0 = 0 := by
  unfold jsRound
  rw [zero_add]
  exact Int.floor_eq_zero_iff.mpr (by constructor <;> norm_num)

lemma jsRound_lt {x y : ℝ} (h : x + 1 ≤ y) : jsRound x < jsRound y := by
  unfold jsRound
  have h1 : ⌊x + 1/2⌋ + 1 = ⌊x + 1/2 + 1⌋ := by
    have := Int.floor_add_int (x + 1/2) 1
    push_cast at this
    omega
  have h2 : ⌊x + 1/2 + 1⌋ ≤ ⌊y + 1/2⌋ := Int.floor_mono (by linarith)
  omega

lemma hav_a_symm (p q r s : ℝ) :
    Real.sin ((q - p) * Real.pi / 180 / 2) * Real.sin ((q - p) * Real.pi / 180 / 2) +
      Real.cos (p * Real.pi / 180) * Real.cos (q * Real.pi / 180) *
      Real.sin ((s - r) * Real.pi / 180 / 2) * Real.sin ((s - r) * Real.pi / 180 / 2) =
    Real.sin ((p - q) * Real.pi / 180 / 2) * Real.sin ((p - q) * Real.pi / 180 / 2) +
      Real.cos (q * Real.pi / 180) * Real.cos (p * Real.pi / 180) *
      Real.sin ((r - s) * Real.pi / 180 / 2) * Real.sin ((r - s) * Real.pi / 180 / 2) := by
  have e1 : (p - q) * Real.pi / 180 / 2 = -((q - p) * Real.pi / 180 / 2) := by ring
  have e2 : (r - s) * Real.pi / 180 / 2 = -((s - r) * Real.pi / 180 / 2) := by ring
  rw [e1, e2]
  simp only [Real.sin_neg]
  ring

/-- C3: for every pair of points with valid latitudes and longitudes,
the haversine distance from a point to itself is 0 and the distance is
symmetric in its two points. -/
theorem calculateDistance_refl_symm (lat1 lng1 lat2 lng2 : ℝ)
    (_hlat1 : -90 ≤ lat1 ∧ lat1 ≤ 90) (_hlng1 : -180 ≤ lng1 ∧ lng1 ≤ 180)
    (_hlat2 : -90 ≤ lat2 ∧ lat2 ≤ 90) (_hlng2 : -180 ≤ lng2 ∧ lng2 ≤ 180) :
    calculateDistance lat1 lng1 lat1 lng1 = 0 ∧
    calculateDistance lat1 lng1 lat2 lng2 = calculateDistance lat2 lng2 lat1 lng1 := by
  constructor
  · simp only [calculateDistance, sub_self, zero_mul, zero_div, Real.sin_zero,
      mul_zero, zero_add, add_zero]
    rw [Real.sqrt_zero, sub_zero, Real.sqrt_one]
    unfold atan2
    rw [if_pos (by norm_num : (0:ℝ) < 1), zero_div, Real.arctan_zero, mul_zero,
      mul_zero, jsRound_zero]
  · simp only [calculateDistance]
    rw [hav_a_symm lat1 lat2 lng1 lng2]

/-- Witness for C3 at concrete valid coordinates. -/
theorem calculateDistance_refl_symm_witness :
    ((-90:ℝ) ≤ 43 ∧ (43:ℝ) ≤ 90) ∧ ((-180:ℝ) ≤ -79 ∧ (-79:ℝ) ≤ 180) ∧
    ((-90:ℝ) ≤ 45 ∧ (45:ℝ) ≤ 90) ∧ ((-180:ℝ) ≤ -73 ∧ (-73:ℝ) ≤ 180) ∧
    (calculateDistance 43 (-79) 43 (-79) = 0 ∧
     calculateDistance 43 (-79) 45 (-73) = calculateDistance 45 (-73) 43 (-79)) :=
  ⟨by norm_num, by norm_num, by norm_num, by norm_num,
   calculateDistance_refl_symm 43 (-79) 45 (-73)
     (by norm_num) (by norm_num) (by norm_num) (by norm_num)⟩

/-- JavaScript regex `\s` membership, restricted to the ASCII whitespace
characters that can occur in the modelled inputs. -/
def isJsSpace (c : Char) : Bool :=
  c == ' ' || c == '\t' || c == '\n' || c == '\r' ||
  c == Char.ofNat 11 || c == Char.ofNat 12

/-- The anchored regex `^[A-Za-z]\d[A-Za-z][ -]?\d[A-Za-z]\d$`
(script.js line 11), compiled to a shape test on the character list:
either six characters letter-digit-letter-digit-letter-digit, or seven
with a space or hyphen separator after the first three. -/
def postalCodeTest (cs : List Char) : Bool :=
  match cs with
  | [a, b, c, d, e, f] =>
    a.isAlpha && b.isDigit && c.isAlpha && d.isDigit && e.isAlpha && f.isDigit
  | [a, b, c, sep, d, e, f] =>
    a.isAlpha && b.isDigit && c.isAlpha && (sep == ' ' || sep == '-') &&
    d.isDigit && e.isAlpha && f.isDigit
  | _ => false

/-- `isPostalCode` (script.js lines 27-29): strips all whitespace with
`replace(/\s/g, '')` and tests the postal-code regex. -/
def isPostalCode (input : String) : Bool :=
  postalCodeTest (input.toList.filter (fun c => !(isJsSpace c)))

/-- The postal-code branch of `geocodeCanadianLocation` (script.js
line 38): the template literal appending ", Canada". -/
def postalBranch (query : String) : String := query ++ ", Canada"

/-- The place-name branch of `geocodeCanadianLocation` (script.js
line 40): the identical template literal appending ", Canada". -/
def placeBranch (query : String) : String := query ++ ", Canada"

/-- The augmented search query built by `geocodeCanadianLocation`
(script.js lines 36-41). -/
def augmentedQuery (query : String) : String :=
  if isPostalCode query then postalBranch query else placeBranch query

/-- C7: the postal code matcher accepts K1A0B1 and K1A 0B1 and rejects
12345 and K1A0B. -/
theorem isPostalCode_examples :
    isPostalCode "K1A0B1" = true ∧ isPostalCode "K1A 0B1" = true ∧
    isPostalCode "12345" = false ∧ isPostalCode "K1A0B" = false := by
  decide

/-- C8: the two branches of the query augmentation are extensionally
equal, so the augmented query is the query with ", Canada" appended
whether or not the input looks like a postal code. -/
theorem augmentedQuery_branches_equal (query : String) :
    postalBranch query = placeBranch query ∧
    augmentedQuery query = query ++ ", Canada" := by
  refine ⟨rfl, ?_⟩
  unfold augmentedQuery postalBranch placeBranch
  rw [ite_self]

/-- One tier of the rate table (script.js lines 156-160). -/
structure TierRates where
  baseCost : ℝ
  perKm : ℝ
  perPound : ℝ
  days : ℕ × ℕ

/-- The `shippingRates` object lookup (script.js lines 156-160): a
recognized tier name yields its rates, any other key yields `none`
(JavaScript `undefined`). -/
def shippingRates (shippingType : String) : Option TierRates :=
  if shippingType = "standard" then some ⟨18, 0.65, 0.15, (3, 5)⟩
  else if shippingType = "express" then some ⟨42, 0.95, 0.22, (1, 2)⟩
  else if shippingType = "overnight" then some ⟨85, 1.45, 0.40, (1, 1)⟩
  else none

/-- The record returned by `calculateShippingCost`. -/
structure ShippingResult where
  cost : ℝ
  distance : ℤ
  deliveryDays : ℕ × ℕ

/-- `calculateShippingCost` (script.js lines 163-176).  For an
unrecognized tier the JavaScript dereferences `undefined` and throws a
TypeError, modelled as `none`. -/
noncomputable def calculateShippingCost (originLocation destinationLocation : Location)
    (weight : ℝ) (shippingType : String) : Option ShippingResult :=
  let distance := calculateDistance originLocation.lat originLocation.lng
    destinationLocation.lat destinationLocation.lng
  match shippingRates shippingType with
  | none => none
  | some rates =>
    let distanceCost := (distance : ℝ) * rates.perKm
    let weightCost := weight * rates.perPound
    let totalCost := rates.baseCost + distanceCost + weightCost
    some ⟨totalCost, distance, rates.days⟩

/-- C1: for each of the three tiers, the computed cost is exactly
baseCost + roundedDistance * perKm + weight * perWeight, and the
delivery-day interval is the tier constant, independent of distance and
weight. -/
theorem calculateShippingCost_formula (o d : Location) (w : ℝ) :
    calculateShippingCost o d w "standard" =
      some ⟨18 + ((calculateDistance o.lat o.lng d.lat d.lng : ℤ) : ℝ) * 0.65 + w * 0.15,
        calculateDistance o.lat o.lng d.lat d.lng, (3, 5)⟩ ∧
    calculateShippingCost o d w "express" =
      some ⟨42 + ((calculateDistance o.lat o.lng d.lat d.lng : ℤ) : ℝ) * 0.95 + w * 0.22,
        calculateDistance o.lat o.lng d.lat d.lng, (1, 2)⟩ ∧
    calculateShippingCost o d w "overnight" =
      some ⟨85 + ((calculateDistance o.lat o.lng d.lat d.lng : ℤ) : ℝ) * 1.45 + w * 0.40,
        calculateDistance o.lat o.lng d.lat d.lng, (1, 1)⟩ := by
  refine ⟨?_, ?_, ?_⟩ <;> simp [calculateShippingCost, shippingRates]

/-- Outcome of one run of the `shippingForm` submit handler. -/
inductive SubmitResult where
  | alerted (msg : String)
  | rendered (res : ShippingResult)
  | crashed

/-- Whether a submit outcome was a blocking alert. -/
def isAlerted : SubmitResult → Bool
  | .alerted _ => true
  | _ => false

/-- The `shippingForm` submit handler (script.js lines 297-323).
`origin`/`destination` are the selected locations (`none` = null),
`weight` is the `parseFloat` result (`none` = NaN), `shippingType` the
select value.  The JavaScript guard `!origin || !destination ||
!weight || !shippingType` alerts when a selection is missing, the
weight is NaN or 0, or the tier string is empty; a second guard alerts
on equal ids; otherwise the handler computes and renders, crashing if
the tier is not in the rate table. -/
noncomputable def shippingSubmit (origin destination : Option Location)
    (weight : Option ℝ) (shippingType : String) : SubmitResult :=
  match origin, destination, weight with
  | some o, some dst, some w =>
    if w = 0 ∨ shippingType = "" then
      .alerted "Please select valid Canadian locations and fill in all fields"
    else if o.id = dst.id then
      .alerted "Origin and destination cannot be the same"
    else
      match calculateShippingCost o dst w shippingType with
      | some res => .rendered res
      | none => .crashed
  | _, _, _ =>
    .alerted "Please select valid Canadian locations and fill in all fields"

/-- C2 (amended): the submit handler alerts exactly when a selection is
missing, the weight is NaN or zero, the tier string is empty, or the
selected origin and destination ids are equal; when it does not alert it
crashes exactly when the tier is not in the rate table (and otherwise
renders).  In particular a negative weight and an unrecognized non-empty
tier both pass validation. -/
theorem shippingSubmit_validation (origin destination : Option Location)
    (w : Option ℝ) (t : String) :
    (isAlerted (shippingSubmit origin destination w t) = true ↔
      origin = none ∨ destination = none ∨ w = none ∨ w = some 0 ∨ t = "" ∨
      (∃ o dst, origin = some o ∧ destination = some dst ∧ o.id = dst.id)) ∧
    (shippingSubmit origin destination w t = SubmitResult.crashed ↔
      isAlerted (shippingSubmit origin destination w t) = false ∧ shippingRates t = none) := by
  rcases origin with _ | o
  · simp [shippingSubmit, isAlerted]
  rcases destination with _ | dst
  · simp [shippingSubmit, isAlerted]
  rcases w with _ | wv
  · simp [shippingSubmit, isAlerted]
  by_cases h1 : wv = 0 ∨ t = ""
  · constructor
    · rcases h1 with h | h <;> simp [shippingSubmit, isAlerted, h]
    · simp [shippingSubmit, isAlerted, h1]
  · have hw : wv ≠ 0 := fun h => h1 (Or.inl h)
    have ht : t ≠ "" := fun h => h1 (Or.inr h)
    by_cases h2 : o.id = dst.id
    · constructor
      · simp [shippingSubmit, isAlerted, h1, h2]
      · simp [shippingSubmit, isAlerted, h1, h2]
    · rcases hr : shippingRates t with _ | r <;> constructor <;>
        simp [shippingSubmit, isAlerted, calculateShippingCost, h1, h2, hr, hw, ht]

/-- A concrete selected origin used in counterexamples. -/
def ctOrigin : Location := ⟨"Toronto", "Toronto, Ontario, Canada", 43, -79, 1, "city", none⟩

/-- A concrete selected destination used in counterexamples. -/
def ctDestination : Location := ⟨"Ottawa", "Ottawa, Ontario, Canada", 45, -75, 2, "city", none⟩

/-- Counterexample to C2 as stated: with a negative weight (-5) the
handler does not alert (it proceeds to compute and render), and with the
unrecognized non-empty tier "priority" it crashes on the rate lookup
instead of alerting. -/
theorem shippingSubmit_counterexample :
    isAlerted (shippingSubmit (some ctOrigin) (some ctDestination) (some (-5)) "standard")
      = false ∧
    shippingSubmit (some ctOrigin) (some ctDestination) (some 5) "priority"
      = SubmitResult.crashed := by
  constructor
  · simp [shippingSubmit, isAlerted, ctOrigin, ctDestination, calculateShippingCost,
      shippingRates]
  · simp [shippingSubmit, isAlerted, ctOrigin, ctDestination, calculateShippingCost,
      shippingRates]

/-- The `address` sub-object of a geocoding result (script.js lines
47-56); `none` models an absent field. -/
structure RawAddress where
  city : Option String
  town : Option String
  village : Option String
  state : Option String
  province : Option String
  postcode : Option String

/-- The empty object used for `item.address || {}`. -/
def emptyAddress : RawAddress := ⟨none, none, none, none, none, none⟩

/-- One raw geocoding result as consumed by the client (script.js lines
46-67).  `lat`/`lon` hold the `parseFloat` of the provider strings, with
`none` modelling NaN (an unparseable value). -/
structure RawItem where
  display_name : String
  lat : Option ℝ
  lon : Option ℝ
  place_id : ℕ
  type : String
  address : Option RawAddress

/-- JavaScript truthiness of an optional string: absent and empty
strings are falsy. -/
def strTruthy : Option String → Bool
  | none => false
  | some s => s ≠ ""

/-- JavaScript `a || b` on optional strings. -/
def jsOr (a b : Option String) : Option String :=
  if strTruthy a then a else b

/-- The display-name formatting of one geocoding result (script.js
lines 48-57): prefer city/town/village with an optional
state/province, fall back to postcode with state (or "Canada"), else
the provider's full display string. -/
def formatName (item : RawItem) : String :=
  let address := item.address.getD emptyAddress
  let cityOpt := jsOr (jsOr address.city address.town) address.village
  if strTruthy cityOpt then
    let city := cityOpt.getD ""
    let provOpt := jsOr address.state address.province
    if strTruthy provOpt then city ++ ", " ++ provOpt.getD "" else city
  else if strTruthy address.postcode then
    address.postcode.getD "" ++ ", " ++
      (if strTruthy address.state then address.state.getD "" else "Canada")
  else item.display_name

/-- The `Location` built from one raw result (script.js lines 59-67).
A NaN coordinate becomes 0 here; both NaN and 0 are falsy in the
subsequent filter, exactly as in the JavaScript. -/
def toLocation (item : RawItem) : Location :=
  ⟨formatName item, item.display_name, (item.lat.getD 0 : ℝ), (item.lon.getD 0 : ℝ),
    item.place_id, item.type, (item.address.getD emptyAddress).postcode⟩

/-- The `data.map(...).filter(item => item.lat && item.lng)` pipeline of
`geocodeCanadianLocation` (script.js lines 46-68). -/
noncomputable def processResults (data : List RawItem) : List Location :=
  (data.map toLocation).filter (fun item => decide (item.lat ≠ 0) && decide (item.lng ≠ 0))

/-- Outcome of the `fetch`/`response.json()` step: a parsed result list,
or a thrown network/parsing error. -/
inductive FetchOutcome where
  | success (data : List RawItem)
  | failure

/-- Map update used for `cityCache[query] = locations`. -/
def cacheInsert (cache : String → Option (List Location)) (query : String)
    (locations : List Location) : String → Option (List Location) :=
  fun q => if q = query then some locations else cache q

/-- One call of `geocodeCanadianLocation` (script.js lines 32-76) as a
state transition on the module-level `cityCache`.  Returns the result
list, the cache after the call, and whether a network request was
issued.  A cached list (even an empty one — arrays are truthy) is
returned without a request; on a miss the fetch runs, a success is
cached, and a thrown failure returns the empty list WITHOUT caching. -/
noncomputable def geocodeCanadianLocation (cityCache : String → Option (List Location))
    (query : String) (outcome : FetchOutcome) :
    List Location × (String → Option (List Location)) × Bool :=
  match cityCache query with
  | some cached => (cached, cityCache, false)
  | none =>
    match outcome with
    | .success data =>
      let locations := processResults data
      (locations, cacheInsert cityCache query locations, true)
    | .failure => ([], cityCache, true)

/-- Counterexample to C9 as stated: after a first call that failed (and
returned the empty list), a repeated call with the identical query
issues a network request again, because the catch branch does not write
the cache. -/
theorem geocode_failure_not_cached :
    (geocodeCanadianLocation (fun _ => none) "Toronto" .failure).1 = [] ∧
    (geocodeCanadianLocation
      ((geocodeCanadianLocation (fun _ => none) "Toronto" .failure).2.1)
      "Toronto" .failure).2.2 = true := by
  constructor <;> rfl

/-- C9 (amended): after a first call that succeeded, any repeated call
with the identical query returns the cached result list, leaves the
cache unchanged and issues no network request; a failed first call
caches nothing, so its repeat re-fetches. -/
theorem geocode_cache_after_success (cityCache : String → Option (List Location))
    (query : String) (data : List RawItem) (outcome2 : FetchOutcome)
    (h : cityCache query = none) :
    geocodeCanadianLocation ((geocodeCanadianLocation cityCache query (.success data)).2.1)
      query outcome2 =
    ((geocodeCanadianLocation cityCache query (.success data)).1,
     (geocodeCanadianLocation cityCache query (.success data)).2.1, false) := by
  simp [geocodeCanadianLocation, cacheInsert, h]

/-- Witness for C9's amended theorem on the empty cache. -/
theorem geocode_cache_after_success_witness :
    ((fun _ : String => (none : Option (List Location))) "Toronto" = none) ∧
    geocodeCanadianLocation
      ((geocodeCanadianLocation (fun _ => none) "Toronto" (.success [])).2.1)
      "Toronto" .failure =
    ((geocodeCanadianLocation (fun _ => none) "Toronto" (.success [])).1,
     (geocodeCanadianLocation (fun _ => none) "Toronto" (.success [])).2.1, false) :=
  ⟨rfl, geocode_cache_after_success (fun _ => none) "Toronto" [] .failure rfl⟩

/-- The inner for-loop of `optimizeRoute` (script.js lines 230-237):
starting from the best candidate `nearest` with distance
`nearestDistance` found at index `nearestIndex`, scan the elements of
`rest` (which sit at indices `i, i+1, ...` of the `remaining` array),
updating the best candidate on a strictly smaller distance — so ties
keep the earliest index. -/
noncomputable def loopMin (current nearest : Location) (nearestDistance : ℤ)
    (nearestIndex i : ℕ) : List Location → Location × ℤ × ℕ
  | [] => (nearest, nearestDistance, nearestIndex)
  | x :: rest =>
    let distance := dLoc current x
    if distance < nearestDistance then loopMin current x distance i (i + 1) rest
    else loopMin current nearest nearestDistance nearestIndex (i + 1) rest

/-- The while-loop of `optimizeRoute` (script.js lines 225-243), with an
explicit iteration counter.  Each pass selects the first nearest
remaining stop, appends it, adds its leg distance and removes it by
index (`splice`).  The counter is always called with the length of
`remaining`, which the loop decreases by exactly one per pass, so the
counter never runs out before `remaining` is empty. -/
noncomputable def routeLoopN : ℕ → Location → List Location → List Location × ℤ
  | 0, _, _ => ([], 0)
  | n + 1, current, remaining =>
    match remaining with
    | [] => ([], 0)
    | x :: rest =>
      let r := loopMin current x (dLoc current x) 0 1 rest
      let tail := routeLoopN n r.1 ((x :: rest).eraseIdx r.2.2)
      (r.1 :: tail.1, r.2.1 + tail.2)

/-- `optimizeRoute` (script.js lines 217-246): nearest-neighbor greedy
route.  Returns the route (starting with `start`) and the accumulated
total of the individually rounded leg distances. -/
noncomputable def optimizeRoute (start : Location) (stops : List Location) :
    List Location × ℤ :=
  match stops with
  | [] => ([start], 0)
  | x :: rest =>
    let w := routeLoopN (x :: rest).length start (x :: rest)
    (start :: w.1, w.2)

/-- C4: with an empty stop list the optimizer returns the single-point
route and total distance zero. -/
theorem optimizeRoute_nil (start : Location) : optimizeRoute start [] = ([start], 0) := rfl

/-- The specification's total: the sum over consecutive pairs of a
route of the individually rounded haversine leg distances. -/
noncomputable def legSum : List Location → ℤ
  | [] => 0
  | [_] => 0
  | a :: b :: rest => dLoc a b + legSum (b :: rest)

lemma loopMin_snd_eq_dist (current : Location) :
    ∀ (rest : List Location) (nearest : Location) (bd : ℤ) (bi i : ℕ),
      bd = dLoc current nearest →
      (loopMin current nearest bd bi i rest).2.1 =
        dLoc current (loopMin current nearest bd bi i rest).1 := by
  intro rest
  induction rest with
  | nil => intro nearest bd bi i h; simpa [loopMin] using h
  | cons x rest ih =>
    intro nearest bd bi i h
    simp only [loopMin]
    split
    · exact ih x (dLoc current x) i (i + 1) rfl
    · exact ih nearest bd bi (i + 1) h

lemma loopMin_idx_lt (current : Location) :
    ∀ (rest : List Location) (nearest : Location) (bd : ℤ) (bi i N : ℕ),
      bi < N → i + rest.length ≤ N →
      (loopMin current nearest bd bi i rest).2.2 < N := by
  intro rest
  induction rest with
  | nil => intro nearest bd bi i N h1 _; simpa [loopMin] using h1
  | cons x rest ih =>
    intro nearest bd bi i N h1 h2
    simp only [List.length_cons] at h2
    simp only [loopMin]
    split
    · exact ih x (dLoc current x) i (i + 1) N (by omega) (by omega)
    · exact ih nearest bd bi (i + 1) N h1 (by omega)

lemma drop_cons_parts :
    ∀ (L : List Location) (i : ℕ) (x : Location) (rest : List Location),
      L.drop i = x :: rest → L.get? i = some x ∧ L.drop (i + 1) = rest := by
  intro L
  induction L with
  | nil => intro i x rest h; simp at h
  | cons y L ih =>
    intro i x rest h
    cases i with
    | zero =>
      simp only [List.drop] at h
      obtain ⟨h1, h2⟩ := List.cons.inj h
      subst h1; subst h2
      exact ⟨rfl, rfl⟩
    | succ i =>
      simp only [List.drop_succ_cons] at h
      obtain ⟨g1, g2⟩ := ih i x rest h
      exact ⟨by simpa [List.get?_cons_succ] using g1, by simpa [List.drop_succ_cons] using g2⟩

lemma loopMin_get (current : Location) :
    ∀ (rest : List Location) (L : List Location) (nearest : Location) (bd : ℤ) (bi i : ℕ),
      L.get? bi = some nearest → L.drop i = rest →
      L.get? (loopMin current nearest bd bi i rest).2.2 =
        some (loopMin current nearest bd bi i rest).1 := by
  intro rest
  induction rest with
  | nil => intro L nearest bd bi i hget _; simpa [loopMin] using hget
  | cons x rest ih =>
    intro L nearest bd bi i hget hdrop
    obtain ⟨hx, hd⟩ := drop_cons_parts L i x rest hdrop
    simp only [loopMin]
    split
    · exact ih L x (dLoc current x) i (i + 1) hx hd
    · exact ih L nearest bd bi (i + 1) hget hd

lemma get_cons_eraseIdx :
    ∀ (L : List Location) (i : ℕ) (a : Location),
      L.get? i = some a → (a :: L.eraseIdx i).Perm L := by
  intro L
  induction L with
  | nil => intro i a h; simp at h
  | cons x L ih =>
    intro i a h
    cases i with
    | zero =>
      simp only [List.get?_cons_zero, Option.some.injEq] at h
      subst h
      exact List.Perm.refl _
    | succ i =>
      simp only [List.get?_cons_succ] at h
      simp only [List.eraseIdx_cons_succ]
      exact (List.Perm.swap x a _).trans ((ih i a h).cons x)

lemma routeLoopN_spec :
    ∀ (n : ℕ) (current : Location) (remaining : List Location),
      remaining.length = n →
      ((routeLoopN n current remaining).1).Perm remaining ∧
      (routeLoopN n current remaining).2 =
        legSum (current :: (routeLoopN n current remaining).1) := by
  intro n
  induction n with
  | zero =>
    intro current remaining h
    rw [List.length_eq_zero] at h
    subst h
    exact ⟨List.Perm.refl _, rfl⟩
  | succ n ih =>
    intro current remaining h
    cases remaining with
    | nil => simp at h
    | cons x rest =>
      simp only [List.length_cons] at h
      simp only [routeLoopN]
      set r := loopMin current x (dLoc current x) 0 1 rest with hr
      set E := (x :: rest).eraseIdx r.2.2 with hE
      have hget : (x :: rest).get? r.2.2 = some r.1 :=
        loopMin_get current rest (x :: rest) x (dLoc current x) 0 1 rfl rfl
      have hperm1 : (r.1 :: E).Perm (x :: rest) := get_cons_eraseIdx (x :: rest) r.2.2 r.1 hget
      have hlen2 : E.length = n := by
        have hl := hperm1.length_eq
        simp only [List.length_cons] at hl
        omega
      obtain ⟨ihp, ihs⟩ := ih r.1 E hlen2
      constructor
      · exact (ihp.cons r.1).trans hperm1
      · have hd : r.2.1 = dLoc current r.1 :=
          loopMin_snd_eq_dist current rest x (dLoc current x) 0 1 rfl
        simp only [legSum]
        rw [hd, ← ihs]

/-- C6: the totalDistance returned by the optimizer is exactly the sum
of the individually rounded leg distances over consecutive pairs of the
returned route (rounding per leg, not on the total). -/
theorem optimizeRoute_totalDistance (start : Location) (stops : List Location) :
    (optimizeRoute start stops).2 = legSum (optimizeRoute start stops).1 := by
  cases stops with
  | nil => simp [optimizeRoute, legSum]
  | cons x rest =>
    simp only [optimizeRoute]
    exact (routeLoopN_spec (x :: rest).length start (x :: rest) rfl).2

/-- C10: the returned route has length one more than the stop list,
starts with the start location, and its tail is a permutation of the
stop list: no stop is dropped or duplicated. -/
theorem optimizeRoute_route_shape (start : Location) (stops : List Location) :
    (optimizeRoute start stops).1.length = stops.length + 1 ∧
    (optimizeRoute start stops).1.head? = some start ∧
    ((optimizeRoute start stops).1.tail).Perm stops := by
  cases stops with
  | nil => exact ⟨rfl, rfl, List.Perm.refl _⟩
  | cons x rest =>
    have hperm := (routeLoopN_spec (x :: rest).length start (x :: rest) rfl).1
    have hlen := hperm.length_eq
    simp only [optimizeRoute]
    refine ⟨?_, rfl, ?_⟩
    · simp only [List.length_cons] at hlen ⊢
      omega
    · simpa using hperm

/-- C5: when stop A is strictly nearest to the start S, and B strictly
nearer than C to A, the greedy optimizer visits S, A, B, C in that
order for every input ordering of the three stops.  (Determinism —
identical inputs giving identical output — is definitional here, since
`optimizeRoute` is a pure function.) -/
theorem optimizeRoute_nearest_order (S A B C : Location)
    (h1 : dLoc S A < dLoc S B) (h2 : dLoc S A < dLoc S C) (h3 : dLoc A B < dLoc A C) :
    (optimizeRoute S [A, B, C]).1 = [S, A, B, C] ∧
    (optimizeRoute S [A, C, B]).1 = [S, A, B, C] ∧
    (optimizeRoute S [B, A, C]).1 = [S, A, B, C] ∧
    (optimizeRoute S [B, C, A]).1 = [S, A, B, C] ∧
    (optimizeRoute S [C, A, B]).1 = [S, A, B, C] ∧
    (optimizeRoute S [C, B, A]).1 = [S, A, B, C] := by
  have n1 : ¬ dLoc S B < dLoc S A := not_lt.mpr h1.le
  have n2 : ¬ dLoc S C < dLoc S A := not_lt.mpr h2.le
  have n3 : ¬ dLoc A C < dLoc A B := not_lt.mpr h3.le
  refine ⟨?_, ?_, ?_, ?_, ?_, ?_⟩
  · simp [optimizeRoute, routeLoopN, loopMin, List.eraseIdx, n1, n2, n3]
  · simp [optimizeRoute, routeLoopN, loopMin, List.eraseIdx, n1, n2, h3]
  · simp [optimizeRoute, routeLoopN, loopMin, List.eraseIdx, h1, n2, n3]
  · rcases lt_or_le (dLoc S C) (dLoc S B) with hbc | hbc
    · simp [optimizeRoute, routeLoopN, loopMin, List.eraseIdx, hbc, h2, n3]
    · simp [optimizeRoute, routeLoopN, loopMin, List.eraseIdx, not_lt.mpr hbc, h1, n3]
  · simp [optimizeRoute, routeLoopN, loopMin, List.eraseIdx, h2, n1, h3]
  · rcases lt_or_le (dLoc S B) (dLoc S C) with hcb | hcb
    · simp [optimizeRoute, routeLoopN, loopMin, List.eraseIdx, hcb, h1, h3]
    · simp [optimizeRoute, routeLoopN, loopMin, List.eraseIdx, not_lt.mpr hcb, h2, h3]

lemma atan2_sin_cos (x : ℝ) (h0 : 0 ≤ x) (hhalf : x < Real.pi / 2) :
    2 * atan2 (Real.sqrt (Real.sin x * Real.sin x))
      (Real.sqrt (1 - Real.sin x * Real.sin x)) = 2 * x := by
  have hpi := Real.pi_pos
  have hxpi : x ≤ Real.pi := by linarith
  have hsin : 0 ≤ Real.sin x := Real.sin_nonneg_of_nonneg_of_le_pi h0 hxpi
  have hcos : 0 < Real.cos x := Real.cos_pos_of_mem_Ioo ⟨by linarith, hhalf⟩
  have h1s : 1 - Real.sin x * Real.sin x = Real.cos x * Real.cos x := by
    have hh := Real.sin_sq_add_cos_sq x
    linear_combination -hh
  rw [Real.sqrt_mul_self hsin, h1s, Real.sqrt_mul_self hcos.le]
  unfold atan2
  rw [if_pos hcos, ← Real.tan_eq_sin_div_cos, Real.arctan_tan (by linarith) hhalf]

/-- On the equator the haversine distance reduces to the rounded arc
length of the longitude difference. -/
lemma calculateDistance_equator (l1 l2 : ℝ) (h0 : l1 ≤ l2) (h180 : l2 - l1 < 180) :
    calculateDistance 0 l1 0 l2 = jsRound (6371 * ((l2 - l1) * Real.pi / 180)) := by
  have hpi := Real.pi_pos
  have hq0 : 0 ≤ (l2 - l1) * Real.pi / 180 / 2 :=
    div_nonneg (div_nonneg (mul_nonneg (by linarith) hpi.le) (by norm_num)) (by norm_num)
  have hqhalf : (l2 - l1) * Real.pi / 180 / 2 < Real.pi / 2 := by
    have key : 0 < (180 - (l2 - l1)) * Real.pi := mul_pos (by linarith) hpi
    nlinarith [key]
  simp only [calculateDistance, sub_self, zero_mul, zero_div, Real.sin_zero, mul_zero,
    zero_add, Real.cos_zero, one_mul]
  rw [atan2_sin_cos _ hq0 hqhalf]
  congr 1
  ring

lemma equator_lt (a b c e : ℝ) (h1 : a ≤ b) (h2 : b - a < 180) (h3 : c ≤ e)
    (h4 : e - c < 180) (h5 : b - a + 1 ≤ e - c) :
    calculateDistance 0 a 0 b < calculateDistance 0 c 0 e := by
  rw [calculateDistance_equator a b h1 h2, calculateDistance_equator c e h3 h4]
  apply jsRound_lt
  have hprod : 0 ≤ (e - c - (b - a) - 1) * Real.pi :=
    mul_nonneg (by linarith) (by linarith [Real.pi_gt_three])
  nlinarith [hprod, Real.pi_gt_three]

/-- Equatorial start point for the C5 witness. -/
def wS : Location := ⟨"S", "S", 0, 0, 10, "city", none⟩

/-- Equatorial stop at longitude 1 for the C5 witness. -/
def wA : Location := ⟨"A", "A", 0, 1, 11, "city", none⟩

/-- Equatorial stop at longitude 2 for the C5 witness. -/
def wB : Location := ⟨"B", "B", 0, 2, 12, "city", none⟩

/-- Equatorial stop at longitude 3 for the C5 witness. -/
def wC : Location := ⟨"C", "C", 0, 3, 13, "city", none⟩

/-- Witness for C5 on four concrete equatorial locations. -/
theorem optimizeRoute_nearest_order_witness :
    (dLoc wS wA < dLoc wS wB ∧ dLoc wS wA < dLoc wS wC ∧ dLoc wA wB < dLoc wA wC) ∧
    ((optimizeRoute wS [wA, wB, wC]).1 = [wS, wA, wB, wC] ∧
     (optimizeRoute wS [wA, wC, wB]).1 = [wS, wA, wB, wC] ∧
     (optimizeRoute wS [wB, wA, wC]).1 = [wS, wA, wB, wC] ∧
     (optimizeRoute wS [wB, wC, wA]).1 = [wS, wA, wB, wC] ∧
     (optimizeRoute wS [wC, wA, wB]).1 = [wS, wA, wB, wC] ∧
     (optimizeRoute wS [wC, wB, wA]).1 = [wS, wA, wB, wC]) := by
  have p1 : dLoc wS wA < dLoc wS wB := by
    show calculateDistance 0 0 0 1 < calculateDistance 0 0 0 2
    exact equator_lt 0 1 0 2 (by norm_num) (by norm_num) (by norm_num) (by norm_num)
      (by norm_num)
  have p2 : dLoc wS wA < dLoc wS wC := by
    show calculateDistance 0 0 0 1 < calculateDistance 0 0 0 3
    exact equator_lt 0 1 0 3 (by norm_num) (by norm_num) (by norm_num) (by norm_num)
      (by norm_num)
  have p3 : dLoc wA wB < dLoc wA wC := by
    show calculateDistance 0 1 0 2 < calculateDistance 0 1 0 3
    exact equator_lt 1 2 1 3 (by norm_num) (by norm_num) (by norm_num) (by norm_num)
      (by norm_num)
  exact ⟨⟨p1, p2, p3⟩, optimizeRoute_nearest_order wS wA wB wC p1 p2 p3⟩
